import Mathlib

/-!
Shallow embedding of `src/aws_automation/main.py` (class `AWSClient`), a
script that opens an AWS session, locates and reads a CloudFormation
template on disk, creates an EC2 key pair, and creates or deletes a
CloudFormation stack, polling stack events until a target status appears.

Filesystem paths are modelled as lists of components (`pathlib.Path`
style): `parent` drops the last component, `joinpath` appends one.  A
filesystem is a map from paths to optional file contents.  Vendor (boto3)
API calls are modelled by their outcomes: a call either returns a value or
raises `ClientError`.  The polling loop is modelled with explicit fuel;
`none` means the loop has not returned within that much fuel.
-/

namespace AwsAutomation

/-- A filesystem path, as its list of components (`pathlib.Path`). -/
abbrev FsPath := List String

/-- `Path.parent`: drop the last component (the parent of the root is the
root itself, matching `pathlib`). -/
def parentDir (p : FsPath) : FsPath := p.dropLast

/-- `Path.joinpath(name)`: append one component. -/
def joinpath (d : FsPath) (name : String) : FsPath := d ++ [name]

/-- The three candidate directories `find_file_path` iterates over, in
source order: the directory of the source file, its parent, and its
grandparent (`source_file_path.parent`, `.parent.parent`,
`.parent.parent.parent`). -/
def candidateDirs (sourceFilePath : FsPath) : List FsPath :=
  [parentDir sourceFilePath,
   parentDir (parentDir sourceFilePath),
   parentDir (parentDir (parentDir sourceFilePath))]

/-- `AWSClient.find_file_path`: scan the three candidate directories in
order; return the joined path of the first directory in which the target
file exists, else raise `ValueError` ("File ... not found").
`fsExists p` models `Path.exists()` on path `p`. -/
def find_file_path (fsExists : FsPath → Bool) (sourceFilePath : FsPath)
    (targetFileName : String) : Except String FsPath :=
  match (candidateDirs sourceFilePath).find?
      (fun d => fsExists (joinpath d targetFileName)) with
  | some d => .ok (joinpath d targetFileName)
  | none => .error ("File " ++ targetFileName ++ " not found")

/-- `AWSClient.read_template`: locate the template file with
`find_file_path` and return its exact text content.  The filesystem is
`contents : FsPath → Option String`; a path exists iff it has contents,
and reading returns those contents verbatim. -/
def read_template (contents : FsPath → Option String) (sourceFilePath : FsPath)
    (templateFileName : String) : Except String String :=
  match find_file_path (fun p => (contents p).isSome) sourceFilePath
      templateFileName with
  | .error m => .error m
  | .ok p => .ok ((contents p).getD "")

/-- A boto3 session, by the two fields `AWSClient.open_session` sets. -/
structure Session where
  profileName : Option String
  regionName : String
  deriving Repr, DecidableEq

/-- `AWSClient.open_session`: build a session from the caller's profile
name and the hard-coded region `"us-east-2"`. -/
def open_session (profileName : Option String) : Session :=
  { profileName := profileName, regionName := "us-east-2" }

/-- A botocore `ClientError`, identified by its error code. -/
structure ClientError where
  code : String
  deriving Repr, DecidableEq

/-- Outcome of a Python computation that may raise `ClientError`. -/
inductive PyResult (α : Type) where
  | ok (a : α)
  | exn (e : ClientError)
  deriving Repr, DecidableEq

/-- The response of `ec2.create_key_pair`, by the one field the code
reads (`key_pair["KeyMaterial"]`). -/
structure KeyPairResponse where
  keyMaterial : String
  deriving Repr, DecidableEq

/-- How a method call finished: normal return, an uncaught `ValueError`,
or an uncaught `ClientError`. -/
inductive PyOutcome where
  | ok
  | valueError (msg : String)
  | clientError (e : ClientError)
  deriving Repr, DecidableEq

/-- `AWSClient.create_key_pair`: call the EC2 API; on success write the
returned key material to the SSH key file; on `ClientError` print a
message.  Returns the outcome, the list of file writes
(filename, content), and the printed lines. -/
def create_key_pair (sshKeyFileName keyName : String)
    (api : PyResult KeyPairResponse) :
    PyOutcome × List (String × String) × List String :=
  match api with
  | .ok kp => (.ok, [(sshKeyFileName, kp.keyMaterial)], [])
  | .exn _ =>
      (.ok, [], ["Key pair \x27" ++ keyName ++ "\x27 already exists."])

/-- One stack event, by the one field the code reads:
`event.get("ResourceStatus")` (absent key gives `None`). -/
structure StackEvent where
  resourceStatus : Option String
  deriving Repr, DecidableEq

/-- `[event.get("ResourceStatus") for event in all_events]`. -/
def statusesOf (events : List StackEvent) : List (Option String) :=
  events.map StackEvent.resourceStatus

/-- Observable actions of the polling loop in `wait_for_completion`:
a `describe_stack_events` call numbered by fetch index, a `sleep(n)`,
and the `print("...")` inside the loop body. -/
inductive PollAction where
  | fetch (i : Nat)
  | sleepSec (n : Nat)
  | printDots
  deriving Repr, DecidableEq

/-- The `while status not in statuses` loop of `wait_for_completion`,
entered having already fetched response `i` with event list `events`.
Each iteration sleeps 5 seconds, fetches the next response, prints
`"..."`, and re-checks.  Returns the loop's action trace together with
the index of the fetch that observed the target status; `describe`'s
outcome may be a `ClientError`, which propagates; `none` means the loop
did not finish within `fuel` iterations. -/
def waitWhile (describe : Nat → PyResult (List StackEvent)) (status : String) :
    Nat → Nat → List StackEvent → Option (PyResult (List PollAction × Nat))
  | 0, i, events =>
    if some status ∈ statusesOf events then some (.ok ([], i)) else none
  | fuel + 1, i, events =>
    if some status ∈ statusesOf events then some (.ok ([], i))
    else
      match describe (i + 1) with
      | .exn e => some (.exn e)
      | .ok events2 =>
        match waitWhile describe status fuel (i + 1) events2 with
        | some (.ok (tr, n)) =>
            some (.ok (.sleepSec 5 :: .fetch (i + 1) :: .printDots :: tr, n))
        | some (.exn e) => some (.exn e)
        | none => none

/-- `AWSClient.wait_for_completion`: fetch the event list once, then run
the polling loop.  Returns the full action trace and the index of the
first fetch whose statuses contain the target. -/
def wait_for_completion (describe : Nat → PyResult (List StackEvent))
    (status : String) (fuel : Nat) :
    Option (PyResult (List PollAction × Nat)) :=
  match describe 0 with
  | .exn e => some (.exn e)
  | .ok events =>
    match waitWhile describe status fuel 0 events with
    | some (.ok (tr, n)) => some (.ok (.fetch 0 :: tr, n))
    | some (.exn e) => some (.exn e)
    | none => none

/-- One stack-creation parameter (`ParameterKey` / `ParameterValue`). -/
structure Param where
  parameterKey : String
  parameterValue : String
  deriving Repr, DecidableEq

/-- The fixed parameter list built inside
`create_stack_with_parameters`. -/
def fixedParameters : List Param :=
  [{ parameterKey := "InstanceType", parameterValue := "t2.micro" },
   { parameterKey := "KeyName", parameterValue := "test_key_pair" }]

/-- The arguments of a `cf.create_stack` call. -/
structure CreateStackCall where
  stackName : String
  templateBody : String
  parameters : List Param
  deriving Repr, DecidableEq

/-- `AWSClient.create_stack_with_parameters`: build the fixed parameter
list, read the template (a `ValueError` from `find_file_path` propagates
uncaught), call `cf.create_stack`, then `wait_for_completion` with status
`"CREATE_COMPLETE"`; any `ClientError` from the `try` block is caught and
a message is printed.  Returns the outcome, the `create_stack` calls
issued, and the printed lines; `none` means the polling loop never
finished. -/
def create_stack_with_parameters (contents : FsPath → Option String)
    (sourceFilePath : FsPath) (templateFileName stackName : String)
    (createStackApi : PyResult Unit)
    (describe : Nat → PyResult (List StackEvent)) (fuel : Nat) :
    Option (PyOutcome × List CreateStackCall × List String) :=
  match read_template contents sourceFilePath templateFileName with
  | .error m => some (.valueError m, [], [])
  | .ok tmpl =>
    let call : CreateStackCall :=
      { stackName := stackName, templateBody := tmpl,
        parameters := fixedParameters }
    match createStackApi with
    | .exn _ =>
        some (.ok, [call],
          ["Stack \x27" ++ stackName ++ "\x27 already exists."])
    | .ok _ =>
      match wait_for_completion describe "CREATE_COMPLETE" fuel with
      | none => none
      | some (.exn _) =>
          some (.ok, [call],
            ["Stack \x27" ++ stackName ++ "\x27 already exists."])
      | some (.ok _) =>
          some (.ok, [call],
            ["Stack " ++ stackName ++ " is CREATE_COMPLETE."])

/-- `AWSClient.delete_stack`: call `cf.delete_stack`, then
`wait_for_completion` with status `"DELETE_COMPLETE"`; any `ClientError`
from the `try` block is caught and a message is printed.  Returns the
outcome and the printed lines; `none` means the polling loop never
finished. -/
def delete_stack (stackName : String) (deleteApi : PyResult Unit)
    (describe : Nat → PyResult (List StackEvent)) (fuel : Nat) :
    Option (PyOutcome × List String) :=
  match deleteApi with
  | .exn _ =>
      some (.ok, ["Stack \x27" ++ stackName ++ "\x27 does not exist."])
  | .ok _ =>
    match wait_for_completion describe "DELETE_COMPLETE" fuel with
    | none => none
    | some (.exn _) =>
        some (.ok, ["Stack \x27" ++ stackName ++ "\x27 does not exist."])
    | some (.ok _) =>
        some (.ok, ["Stack " ++ stackName ++ " is DELETE_COMPLETE."])

/-- The loop-body trace after fetch `i` when `k` more iterations run:
each iteration sleeps 5 seconds, fetches the next response, and prints
`"..."`. -/
def loopTrace (i : Nat) : Nat → List PollAction
  | 0 => []
  | k + 1 =>
    .sleepSec 5 :: .fetch (i + 1) :: .printDots :: loopTrace (i + 1) k

/-- The full trace expected when the target status first appears in
fetch `n`: fetch 0, then `n` loop iterations. -/
def expectedTrace (n : Nat) : List PollAction :=
  .fetch 0 :: loopTrace 0 n

/-- The fetch indices occurring in a trace, in order. -/
def fetchIndices (tr : List PollAction) : List Nat :=
  tr.filterMap (fun a =>
    match a with
    | .fetch i => some i
    | _ => none)

/-- Helper: a path returned by `find_file_path` exists on the
filesystem. -/
theorem find_file_path_ok_fsExists (fsExists : FsPath → Bool)
    (src : FsPath) (tgt : String) (p : FsPath)
    (h : find_file_path fsExists src tgt = .ok p) : fsExists p = true := by
  unfold find_file_path at h
  rcases hfind : (candidateDirs src).find?
      (fun d => fsExists (joinpath d tgt)) with _ | d
  · rw [hfind] at h
    exact absurd h (by simp)
  · rw [hfind] at h
    have hd := List.find?_some hfind
    cases h
    simpa using hd

/-- C4: `find_file_path` examines exactly the three candidate directories
(source directory, parent, grandparent) in that fixed order and returns
the joined path for the first directory in which the file exists; it
errors only when all three misses occur. -/
theorem c4_find_file_path_first_of_three_dirs
    (fsExists : FsPath → Bool) (src : FsPath) (tgt : String) :
    candidateDirs src =
      [parentDir src, parentDir (parentDir src),
       parentDir (parentDir (parentDir src))] ∧
    (fsExists (joinpath (parentDir src) tgt) = true →
      find_file_path fsExists src tgt = .ok (joinpath (parentDir src) tgt)) ∧
    (fsExists (joinpath (parentDir src) tgt) = false →
     fsExists (joinpath (parentDir (parentDir src)) tgt) = true →
      find_file_path fsExists src tgt =
        .ok (joinpath (parentDir (parentDir src)) tgt)) ∧
    (fsExists (joinpath (parentDir src) tgt) = false →
     fsExists (joinpath (parentDir (parentDir src)) tgt) = false →
     fsExists (joinpath (parentDir (parentDir (parentDir src))) tgt) = true →
      find_file_path fsExists src tgt =
        .ok (joinpath (parentDir (parentDir (parentDir src))) tgt)) ∧
    (fsExists (joinpath (parentDir src) tgt) = false →
     fsExists (joinpath (parentDir (parentDir src)) tgt) = false →
     fsExists (joinpath (parentDir (parentDir (parentDir src))) tgt) = false →
      find_file_path fsExists src tgt =
        .error ("File " ++ tgt ++ " not found")) := by
  refine ⟨rfl, ?_, ?_, ?_, ?_⟩
  all_goals
    intros
    simp_all [find_file_path, candidateDirs, List.find?]

/-- Witness for C4 at a concrete filesystem: the file lives in the parent
directory only, and `find_file_path` returns that path. -/
theorem c4_find_file_path_first_of_three_dirs_witness :
    find_file_path (fun p => decide (p = ["home", "t.yml"]))
      ["home", "proj", "main.py"] "t.yml" = .ok ["home", "t.yml"] := by
  have h := (c4_find_file_path_first_of_three_dirs
    (fun p => decide (p = ["home", "t.yml"]))
    ["home", "proj", "main.py"] "t.yml").2.2.1 (by decide) (by decide)
  simpa [joinpath, parentDir] using h

/-- C6: `find_file_path` raises the `ValueError` "File ... not found" iff
the target file exists in none of the three candidate directories;
whenever it exists in at least one, the function returns a path. -/
theorem c6_find_file_path_error_iff_absent_everywhere
    (fsExists : FsPath → Bool) (src : FsPath) (tgt : String) :
    (find_file_path fsExists src tgt =
        .error ("File " ++ tgt ++ " not found") ↔
      ∀ d ∈ candidateDirs src, fsExists (joinpath d tgt) = false) ∧
    ((∃ d ∈ candidateDirs src, fsExists (joinpath d tgt) = true) →
      ∃ p, find_file_path fsExists src tgt = .ok p) := by
  constructor
  · constructor
    · intro h d hd
      rcases hb : fsExists (joinpath d tgt) with _ | _
      · rfl
      · exfalso
        simp only [candidateDirs, List.mem_cons, List.not_mem_nil, or_false]
          at hd
        rcases hd with rfl | rfl | rfl
        all_goals rcases hx : fsExists (joinpath (parentDir src) tgt)
        all_goals rcases hy :
          fsExists (joinpath (parentDir (parentDir src)) tgt)
        all_goals rcases hz :
          fsExists (joinpath (parentDir (parentDir (parentDir src))) tgt)
        all_goals simp_all [find_file_path, candidateDirs, List.find?]
    · intro h
      have h1 := h (parentDir src) (by simp [candidateDirs])
      have h2 := h (parentDir (parentDir src)) (by simp [candidateDirs])
      have h3 := h (parentDir (parentDir (parentDir src)))
        (by simp [candidateDirs])
      simp [find_file_path, candidateDirs, List.find?, h1, h2, h3]
  · rintro ⟨d, hd, hb⟩
    simp only [candidateDirs, List.mem_cons, List.not_mem_nil, or_false] at hd
    unfold find_file_path candidateDirs
    rcases hx : fsExists (joinpath (parentDir src) tgt)
    all_goals rcases hy :
      fsExists (joinpath (parentDir (parentDir src)) tgt)
    all_goals rcases hz :
      fsExists (joinpath (parentDir (parentDir (parentDir src))) tgt)
    all_goals simp_all [List.find?]
    all_goals rcases hd with rfl | rfl | rfl
    all_goals simp_all

/-- Witness for C6 at a concrete filesystem with no file anywhere: the
error branch fires; and with the file present, a path is returned. -/
theorem c6_find_file_path_error_iff_absent_everywhere_witness :
    find_file_path (fun _ => false) ["a", "b", "c"] "x.yml" =
      .error ("File " ++ "x.yml" ++ " not found") ∧
    ∃ p, find_file_path (fun _ => true) ["a", "b", "c"] "x.yml" = .ok p := by
  constructor
  · exact (c6_find_file_path_error_iff_absent_everywhere
      (fun _ => false) ["a", "b", "c"] "x.yml").1.mpr (by intro d _; rfl)
  · exact (c6_find_file_path_error_iff_absent_everywhere
      (fun _ => true) ["a", "b", "c"] "x.yml").2
      ⟨parentDir ["a", "b", "c"], by simp [candidateDirs], rfl⟩

/-- C8: when the target file exists in more than one candidate directory,
`find_file_path` returns the path from the earliest directory in the
search order and raises nothing; no "multiple directories" check exists,
despite the docstring listing such a `ValueError`. -/
theorem c8_find_file_path_multiple_dirs_earliest_wins
    (fsExists : FsPath → Bool) (src : FsPath) (tgt : String) :
    (fsExists (joinpath (parentDir src) tgt) = true →
     fsExists (joinpath (parentDir (parentDir src)) tgt) = true →
      find_file_path fsExists src tgt = .ok (joinpath (parentDir src) tgt)) ∧
    (fsExists (joinpath (parentDir src) tgt) = true →
     fsExists (joinpath (parentDir (parentDir (parentDir src))) tgt) = true →
      find_file_path fsExists src tgt = .ok (joinpath (parentDir src) tgt)) ∧
    (fsExists (joinpath (parentDir src) tgt) = false →
     fsExists (joinpath (parentDir (parentDir src)) tgt) = true →
     fsExists (joinpath (parentDir (parentDir (parentDir src))) tgt) = true →
      find_file_path fsExists src tgt =
        .ok (joinpath (parentDir (parentDir src)) tgt)) ∧
    (2 ≤ ((candidateDirs src).filter
        (fun d => fsExists (joinpath d tgt))).length →
      ∃ p, find_file_path fsExists src tgt = .ok p) := by
  refine ⟨?_, ?_, ?_, ?_⟩
  · intro h1 _
    simp [find_file_path, candidateDirs, List.find?, h1]
  · intro h1 _
    simp [find_file_path, candidateDirs, List.find?, h1]
  · intro h1 h2 _
    simp [find_file_path, candidateDirs, List.find?, h1, h2]
  · intro hcount
    rcases hx : fsExists (joinpath (parentDir src) tgt) <;>
      rcases hy : fsExists (joinpath (parentDir (parentDir src)) tgt) <;>
      rcases hz : fsExists (joinpath (parentDir (parentDir (parentDir src))) tgt) <;>
      simp_all [find_file_path, candidateDirs, List.find?, List.filter]

/-- Witness for C8: the file exists in all three candidate directories
(filesystem is everywhere-true) and the source-directory path wins. -/
theorem c8_find_file_path_multiple_dirs_earliest_wins_witness :
    find_file_path (fun _ => true) ["a", "b", "c"] "x.yml" =
      .ok (joinpath (parentDir ["a", "b", "c"]) "x.yml") :=
  (c8_find_file_path_multiple_dirs_earliest_wins
    (fun _ => true) ["a", "b", "c"] "x.yml").1 rfl rfl

/-- C9: `open_session` hard-codes the region to `"us-east-2"` for every
profile name; only the profile name is taken from the caller. -/
theorem c9_open_session_region_hardcoded (profileName : Option String) :
    (open_session profileName).regionName = "us-east-2" ∧
    (open_session profileName).profileName = profileName :=
  ⟨rfl, rfl⟩

/-- C10: `create_key_pair` writes the private-key material to the SSH key
file exactly when the API call succeeds; on `ClientError` it performs no
file write. -/
theorem c10_create_key_pair_no_write_on_error
    (sshKeyFileName keyName : String) (e : ClientError)
    (kp : KeyPairResponse) :
    (create_key_pair sshKeyFileName keyName (.exn e)).2.1 = [] ∧
    (create_key_pair sshKeyFileName keyName (.ok kp)).2.1 =
      [(sshKeyFileName, kp.keyMaterial)] :=
  ⟨rfl, rfl⟩

/-- C5: the template is forwarded verbatim: `read_template` returns the
exact contents of the located template file, and every `create_stack`
call issued by `create_stack_with_parameters` carries that string
unchanged as its `TemplateBody`. -/
theorem c5_template_forwarded_verbatim
    (contents : FsPath → Option String) (src : FsPath)
    (tname sname : String) (csApi : PyResult Unit)
    (describe : Nat → PyResult (List StackEvent)) (fuel : Nat) (s : String)
    (hread : read_template contents src tname = .ok s) :
    (∃ p, find_file_path (fun q => (contents q).isSome) src tname = .ok p ∧
      contents p = some s) ∧
    (∀ o calls printed,
      create_stack_with_parameters contents src tname sname csApi describe
          fuel = some (o, calls, printed) →
      ∀ call ∈ calls, call.templateBody = s) := by
  constructor
  · unfold read_template at hread
    rcases hfind : find_file_path (fun q => (contents q).isSome) src tname
      with m | p
    · rw [hfind] at hread
      exact absurd hread (by simp)
    · rw [hfind] at hread
      simp only [Except.ok.injEq] at hread
      have hex := find_file_path_ok_fsExists _ _ _ _ hfind
      refine ⟨p, rfl, ?_⟩
      rcases hc : contents p with _ | v
      · rw [hc] at hex
        exact absurd hex (by simp)
      · rw [hc] at hread
        simp at hread
        rw [hread]
  · intro o calls printed hrun call hcall
    unfold create_stack_with_parameters at hrun
    rw [hread] at hrun
    rcases csApi with _ | e
    · rcases hw : wait_for_completion describe "CREATE_COMPLETE" fuel
        with _ | r
      · simp [hw] at hrun
      · rcases r with r | e2 <;>
        · simp [hw] at hrun
          rcases hrun with ⟨_, hcalls, _⟩
          subst hcalls
          simp at hcall
          subst hcall
          rfl
    · simp at hrun
      rcases hrun with ⟨_, hcalls, _⟩
      subst hcalls
      simp at hcall
      subst hcall
      rfl

/-- Witness for C5: a one-file filesystem with template text
"Resources: x"; `read_template` succeeds and the issued call carries
that text. -/
theorem c5_template_forwarded_verbatim_witness :
    read_template
        (fun p => if p = ["home", "t.yml"] then some "Resources: x" else none)
        ["home", "proj", "main.py"] "t.yml" = .ok "Resources: x" ∧
    (∀ o calls printed,
      create_stack_with_parameters
          (fun p => if p = ["home", "t.yml"] then some "Resources: x" else none)
          ["home", "proj", "main.py"] "t.yml" "st" (.ok ())
          (fun _ => .ok [{ resourceStatus := some "CREATE_COMPLETE" }]) 1
        = some (o, calls, printed) →
      ∀ call ∈ calls, call.templateBody = "Resources: x") := by
  have hread : read_template
      (fun p => if p = ["home", "t.yml"] then some "Resources: x" else none)
      ["home", "proj", "main.py"] "t.yml" = .ok "Resources: x" := by
    simp [read_template, find_file_path, candidateDirs, parentDir, joinpath,
      List.find?]
  exact ⟨hread,
    (c5_template_forwarded_verbatim
      (fun p => if p = ["home", "t.yml"] then some "Resources: x" else none)
      ["home", "proj", "main.py"] "t.yml" "st" (.ok ())
      (fun _ => .ok [{ resourceStatus := some "CREATE_COMPLETE" }]) 1
      "Resources: x" hread).2⟩

/-- C7: every `create_stack` call issued by
`create_stack_with_parameters` carries exactly the fixed two-element
parameter list `InstanceType = t2.micro`, `KeyName = test_key_pair`,
independent of all inputs. -/
theorem c7_fixed_stack_parameters
    (contents : FsPath → Option String) (src : FsPath)
    (tname sname : String) (csApi : PyResult Unit)
    (describe : Nat → PyResult (List StackEvent)) (fuel : Nat) :
    fixedParameters =
      [{ parameterKey := "InstanceType", parameterValue := "t2.micro" },
       { parameterKey := "KeyName", parameterValue := "test_key_pair" }] ∧
    (∀ o calls printed,
      create_stack_with_parameters contents src tname sname csApi describe
          fuel = some (o, calls, printed) →
      ∀ call ∈ calls, call.parameters = fixedParameters) := by
  refine ⟨rfl, ?_⟩
  intro o calls printed hrun call hcall
  unfold create_stack_with_parameters at hrun
  rcases hread : read_template contents src tname with m | tmpl
  · rw [hread] at hrun
    simp at hrun
    rcases hrun with ⟨_, hcalls, _⟩
    subst hcalls
    simp at hcall
  · rw [hread] at hrun
    rcases csApi with _ | e
    · rcases hw : wait_for_completion describe "CREATE_COMPLETE" fuel
        with _ | r
      · simp [hw] at hrun
      · rcases r with r | e2 <;>
        · simp [hw] at hrun
          rcases hrun with ⟨_, hcalls, _⟩
          subst hcalls
          simp at hcall
          subst hcall
          rfl
    · simp at hrun
      rcases hrun with ⟨_, hcalls, _⟩
      subst hcalls
      simp at hcall
      subst hcall
      rfl

/-- Witness for C7: on a concrete run that issues a call, its parameter
list is the fixed one. -/
theorem c7_fixed_stack_parameters_witness :
    ∀ o calls printed,
      create_stack_with_parameters
          (fun p => if p = ["home", "t.yml"] then some "T" else none)
          ["home", "proj", "main.py"] "t.yml" "st" (.exn { code := "dup" })
          (fun _ => .ok []) 0
        = some (o, calls, printed) →
      ∀ call ∈ calls, call.parameters = fixedParameters :=
  (c7_fixed_stack_parameters
    (fun p => if p = ["home", "t.yml"] then some "T" else none)
    ["home", "proj", "main.py"] "t.yml" "st" (.exn { code := "dup" })
    (fun _ => .ok []) 0).2

/-- Helper: every sleep in a loop trace lasts exactly 5 seconds. -/
theorem loopTrace_sleeps_five (k : Nat) :
    ∀ (i : Nat) (a : PollAction), a ∈ loopTrace i k →
      ∀ s, a = .sleepSec s → s = 5 := by
  induction k with
  | zero =>
    intro i a ha
    simp [loopTrace] at ha
  | succ k ih =>
    intro i a ha s hs
    simp only [loopTrace, List.mem_cons] at ha
    rcases ha with rfl | rfl | rfl | ha
    · injection hs with h
      exact h.symm
    · simp at hs
    · simp at hs
    · exact ih (i + 1) a ha s hs

/-- Helper: the fetch indices of `loopTrace i k` are
`i + 1, ..., i + k` in order. -/
theorem fetchIndices_loopTrace (k : Nat) :
    ∀ i : Nat, fetchIndices (loopTrace i k) =
      (List.range k).map (fun j => i + 1 + j) := by
  induction k with
  | zero => intro i; rfl
  | succ k ih =>
    intro i
    have hcons : fetchIndices (loopTrace i (k + 1)) =
        (i + 1) :: fetchIndices (loopTrace (i + 1) k) := by
      simp [loopTrace, fetchIndices]
    have hfun : ((fun j => i + 1 + j) ∘ Nat.succ) =
        fun j => i + 1 + 1 + j := by
      funext j
      simp only [Function.comp_apply]
      omega
    rw [hcons, ih (i + 1), List.range_succ_eq_map, List.map_cons,
      List.map_map, hfun]

/-- Helper: the fetch indices of the full expected trace are
`0, 1, ..., n` in order. -/
theorem fetchIndices_expectedTrace (n : Nat) :
    fetchIndices (expectedTrace n) = List.range (n + 1) := by
  have h := fetchIndices_loopTrace n 0
  have h0 : ∀ j : Nat, 0 + 1 + j = j + 1 := by intro j; omega
  rw [List.range_succ_eq_map]
  simp only [expectedTrace, fetchIndices, List.filterMap_cons] at h ⊢
  simp [h, h0, Nat.succ_eq_add_one]

/-- Helper: when the target status first appears among the statuses of
response `i + k`, the loop entered after fetch `i` runs exactly `k` more
iterations and returns `(loopTrace i k, i + k)`. -/
theorem waitWhile_eq_of_first_found (resp : Nat → List StackEvent)
    (status : String) :
    ∀ (k fuel i : Nat), k ≤ fuel →
    (∀ j, j < k → some status ∉ statusesOf (resp (i + j))) →
    some status ∈ statusesOf (resp (i + k)) →
    waitWhile (fun m => .ok (resp m)) status fuel i (resp i) =
      some (.ok (loopTrace i k, i + k)) := by
  intro k
  induction k with
  | zero =>
    intro fuel i _ _ hn
    rw [Nat.add_zero] at hn ⊢
    cases fuel <;> simp [waitWhile, hn, loopTrace]
  | succ k ih =>
    intro fuel i hfuel hmin hn
    rcases fuel with _ | fuel2
    · omega
    have h0 : some status ∉ statusesOf (resp i) := by
      have := hmin 0 (by omega)
      simpa using this
    have hrec := ih fuel2 (i + 1) (by omega)
      (fun j hj => by
        have hx := hmin (j + 1) (by omega)
        have e : i + (j + 1) = i + 1 + j := by omega
        rwa [e] at hx)
      (by
        have e : i + (k + 1) = i + 1 + k := by omega
        rwa [e] at hn)
    simp only [waitWhile, if_neg h0, hrec]
    have e : i + 1 + k = i + (k + 1) := by omega
    simp [loopTrace, e]

/-- Helper: with pure responses, `wait_for_completion` returns the full
expected trace and the index of the first matching fetch. -/
theorem wait_for_completion_pure_eq (resp : Nat → List StackEvent)
    (status : String) (n fuel : Nat) (hfuel : n ≤ fuel)
    (hmin : ∀ m, m < n → some status ∉ statusesOf (resp m))
    (hn : some status ∈ statusesOf (resp n)) :
    wait_for_completion (fun m => .ok (resp m)) status fuel =
      some (.ok (expectedTrace n, n)) := by
  have h := waitWhile_eq_of_first_found resp status n fuel 0 hfuel
    (fun j hj => by simpa using hmin j hj) (by simpa using hn)
  simp [wait_for_completion, expectedTrace, h]

/-- Helper: if the loop returns within some fuel on pure responses, the
target status appears in some response. -/
theorem waitWhile_pure_some_found (resp : Nat → List StackEvent)
    (status : String) :
    ∀ (fuel i : Nat) (r : PyResult (List PollAction × Nat)),
    waitWhile (fun m => .ok (resp m)) status fuel i (resp i) = some r →
    ∃ n, some status ∈ statusesOf (resp n) := by
  intro fuel
  induction fuel with
  | zero =>
    intro i r h
    by_cases hmem : some status ∈ statusesOf (resp i)
    · exact ⟨i, hmem⟩
    · simp [waitWhile, hmem] at h
  | succ fuel ih =>
    intro i r h
    by_cases hmem : some status ∈ statusesOf (resp i)
    · exact ⟨i, hmem⟩
    · simp only [waitWhile, if_neg hmem] at h
      rcases hrec : waitWhile (fun m => .ok (resp m)) status fuel (i + 1)
          (resp (i + 1)) with _ | r2
      · rw [hrec] at h
        simp at h
      · exact ih (i + 1) r2 hrec

/-- Helper: if the target status never appears, the loop never returns,
whatever the fuel. -/
theorem waitWhile_pure_none_of_never (resp : Nat → List StackEvent)
    (status : String)
    (hnever : ∀ n, some status ∉ statusesOf (resp n)) :
    ∀ (fuel i : Nat),
      waitWhile (fun m => .ok (resp m)) status fuel i (resp i) = none := by
  intro fuel
  induction fuel with
  | zero => intro i; simp [waitWhile, hnever i]
  | succ fuel ih => intro i; simp [waitWhile, hnever i, ih (i + 1)]

/-- C1: on a stream of event-list responses whose statuses first contain
the target at fetch `n`, `wait_for_completion` returns exactly at that
fetch; its trace fetches responses `0..n` in order with a fixed 5-second
sleep between consecutive fetches (no backoff). -/
theorem c1_wait_returns_at_first_matching_fetch
    (resp : Nat → List StackEvent) (status : String) (n fuel : Nat)
    (hfuel : n ≤ fuel)
    (hmin : ∀ m, m < n → some status ∉ statusesOf (resp m))
    (hn : some status ∈ statusesOf (resp n)) :
    wait_for_completion (fun m => .ok (resp m)) status fuel =
      some (.ok (expectedTrace n, n)) ∧
    fetchIndices (expectedTrace n) = List.range (n + 1) ∧
    (∀ a ∈ expectedTrace n, ∀ s, a = .sleepSec s → s = 5) := by
  refine ⟨wait_for_completion_pure_eq resp status n fuel hfuel hmin hn,
    fetchIndices_expectedTrace n, ?_⟩
  intro a ha s hs
  rcases List.mem_cons.mp ha with rfl | ha2
  · simp at hs
  · exact loopTrace_sleeps_five n 0 a ha2 s hs

/-- Witness for C1: the target first appears in fetch 1; the loop
returns after one iteration with trace fetch 0, sleep 5, fetch 1. -/
theorem c1_wait_returns_at_first_matching_fetch_witness :
    wait_for_completion
        (fun m => .ok (if m = 0 then []
          else [{ resourceStatus := some "CREATE_COMPLETE" }]))
        "CREATE_COMPLETE" 1 =
      some (.ok (expectedTrace 1, 1)) := by
  have h := c1_wait_returns_at_first_matching_fetch
    (fun m => if m = 0 then []
      else [{ resourceStatus := some "CREATE_COMPLETE" }])
    "CREATE_COMPLETE" 1 1 le_rfl
    (by
      intro m hm
      have hm0 : m = 0 := by omega
      subst hm0
      simp [statusesOf])
    (by simp [statusesOf])
  exact h.1

/-- C2: with pure responses, the polling loop terminates (returns within
some fuel) iff the target status appears among the statuses of some
response; on a stream where it never appears, the loop runs forever. -/
theorem c2_wait_terminates_iff_status_appears
    (resp : Nat → List StackEvent) (status : String) :
    ((∃ fuel r,
        wait_for_completion (fun m => .ok (resp m)) status fuel = some r) ↔
      ∃ n, some status ∈ statusesOf (resp n)) ∧
    ((∀ n, some status ∉ statusesOf (resp n)) →
      ∀ fuel,
        wait_for_completion (fun m => .ok (resp m)) status fuel = none) := by
  constructor
  · constructor
    · rintro ⟨fuel, r, h⟩
      simp only [wait_for_completion] at h
      rcases hw : waitWhile (fun m => .ok (resp m)) status fuel 0 (resp 0)
        with _ | r2
      · rw [hw] at h
        simp at h
      · exact waitWhile_pure_some_found resp status fuel 0 r2 hw
    · rintro ⟨n, hn⟩
      have hex : ∃ m, some status ∈ statusesOf (resp m) := ⟨n, hn⟩
      let n0 := Nat.find hex
      refine ⟨n0, .ok (expectedTrace n0, n0), ?_⟩
      exact wait_for_completion_pure_eq resp status n0 n0 le_rfl
        (fun m hm => Nat.find_min hex hm) (Nat.find_spec hex)
  · intro hnever fuel
    simp [wait_for_completion,
      waitWhile_pure_none_of_never resp status hnever fuel 0]

/-- Witness for C2: a stream whose first response already carries the
target status terminates; a stream of empty event lists never does. -/
theorem c2_wait_terminates_iff_status_appears_witness :
    (∃ fuel r,
      wait_for_completion
          (fun _ => .ok [{ resourceStatus := some "DELETE_COMPLETE" }])
          "DELETE_COMPLETE" fuel = some r) ∧
    (∀ fuel,
      wait_for_completion (fun _ => .ok ([] : List StackEvent))
          "DELETE_COMPLETE" fuel = none) := by
  constructor
  · exact (c2_wait_terminates_iff_status_appears
      (fun _ => [{ resourceStatus := some "DELETE_COMPLETE" }])
      "DELETE_COMPLETE").1.mpr ⟨0, by simp [statusesOf]⟩
  · exact (c2_wait_terminates_iff_status_appears
      (fun _ => ([] : List StackEvent)) "DELETE_COMPLETE").2
      (by intro n; simp [statusesOf])

/-- C3: no `ClientError` ever propagates out of `create_key_pair`,
`create_stack_with_parameters` or `delete_stack`: whatever a vendor API
call returns (including a `ClientError` during the nested
`wait_for_completion`), each method finishes with a normal return, and
in every `ClientError` case it prints a message (duplicate key pair,
duplicate stack, missing stack). -/
theorem c3_client_errors_swallowed
    (sshKeyFileName keyName : String) (api : PyResult KeyPairResponse)
    (contents : FsPath → Option String) (src : FsPath)
    (tname sname : String) (csApi : PyResult Unit)
    (describe : Nat → PyResult (List StackEvent)) (fuel : Nat)
    (deleteApi : PyResult Unit) :
    (create_key_pair sshKeyFileName keyName api).1 = .ok ∧
    (∀ e, api = .exn e →
      (create_key_pair sshKeyFileName keyName api).2.2 =
        ["Key pair \x27" ++ keyName ++ "\x27 already exists."]) ∧
    (∀ o calls printed,
      create_stack_with_parameters contents src tname sname csApi describe
          fuel = some (o, calls, printed) →
      ∀ e, o ≠ .clientError e) ∧
    (∀ e s, csApi = .exn e →
      read_template contents src tname = .ok s →
      create_stack_with_parameters contents src tname sname csApi describe
          fuel =
        some (.ok,
          [{ stackName := sname, templateBody := s,
             parameters := fixedParameters }],
          ["Stack \x27" ++ sname ++ "\x27 already exists."])) ∧
    (∀ e s, csApi = .ok () →
      read_template contents src tname = .ok s →
      wait_for_completion describe "CREATE_COMPLETE" fuel =
        some (.exn e) →
      create_stack_with_parameters contents src tname sname csApi describe
          fuel =
        some (.ok,
          [{ stackName := sname, templateBody := s,
             parameters := fixedParameters }],
          ["Stack \x27" ++ sname ++ "\x27 already exists."])) ∧
    (∀ o printed,
      delete_stack sname deleteApi describe fuel = some (o, printed) →
      ∀ e, o ≠ .clientError e) ∧
    (∀ e, deleteApi = .exn e →
      delete_stack sname deleteApi describe fuel =
        some (.ok, ["Stack \x27" ++ sname ++ "\x27 does not exist."])) ∧
    (∀ e, deleteApi = .ok () →
      wait_for_completion describe "DELETE_COMPLETE" fuel =
        some (.exn e) →
      delete_stack sname deleteApi describe fuel =
        some (.ok, ["Stack \x27" ++ sname ++ "\x27 does not exist."])) := by
  refine ⟨?_, ?_, ?_, ?_, ?_, ?_, ?_, ?_⟩
  · rcases api with kp | e <;> rfl
  · rintro e rfl
    rfl
  · intro o calls printed hrun e
    unfold create_stack_with_parameters at hrun
    rcases hread : read_template contents src tname with m | tmpl <;>
      rw [hread] at hrun
    · simp at hrun
      rcases hrun with ⟨ho, _, _⟩
      subst ho
      simp
    · rcases csApi with u | e2
      · rcases hw : wait_for_completion describe "CREATE_COMPLETE" fuel
          with _ | r
        · simp [hw] at hrun
        · rcases r with r | e3 <;>
          · simp [hw] at hrun
            rcases hrun with ⟨ho, _, _⟩
            subst ho
            simp
      · simp at hrun
        rcases hrun with ⟨ho, _, _⟩
        subst ho
        simp
  · rintro e s rfl hread
    unfold create_stack_with_parameters
    rw [hread]
  · rintro e s rfl hread hw
    unfold create_stack_with_parameters
    rw [hread, hw]
  · intro o printed hrun e
    unfold delete_stack at hrun
    rcases deleteApi with u | e2
    · rcases hw : wait_for_completion describe "DELETE_COMPLETE" fuel
        with _ | r
      · simp [hw] at hrun
      · rcases r with r | e3 <;>
        · simp [hw] at hrun
          rcases hrun with ⟨ho, _⟩
          subst ho
          simp
    · simp at hrun
      rcases hrun with ⟨ho, _⟩
      subst ho
      simp
  · rintro e rfl
    rfl
  · rintro e rfl hw
    unfold delete_stack
    rw [hw]

/-- Witness for C3: a `delete_stack` call whose API raises `ClientError`
returns normally with the "does not exist" message printed. -/
theorem c3_client_errors_swallowed_witness :
    delete_stack "my-cloudformation-stack" (.exn { code := "ValidationError" })
        (fun _ => .ok []) 0 =
      some (.ok,
        ["Stack \x27my-cloudformation-stack\x27 does not exist."]) :=
  (c3_client_errors_swallowed "key_pair.pem" "test_key_pair"
    (.ok { keyMaterial := "m" }) (fun _ => none) [] "launch_ec2.yml"
    "my-cloudformation-stack" (.ok ()) (fun _ => .ok []) 0
    (.exn { code := "ValidationError" })).2.2.2.2.2.2.1
    { code := "ValidationError" } rfl

end AwsAutomation
